import Mathlib

/-!
Verification of the WhatsApp chat-log parsing and normalization engine
(backend/app/analyzer.py, class WhatsAppChatAnalyzer).

The development shallowly embeds `parse_chat` and its helpers:
  * the seven dialect regular expressions become character-list parsers
    (every counted digit group in those regexes is followed by a non-digit
    literal, so regex backtracking reduces to reading the maximal digit run
    and checking its length);
  * `pd.to_datetime(_, format=...)` becomes a strptime-style interpreter over
    the nine concrete format strings used by the code, including calendar
    validation and the int64-nanosecond range restriction of pandas
    timestamps;
  * the per-line loop, system-message mask, and column derivations are
    translated directly;
  * the emoji extractor and the lexical tokenizer call external libraries
    (regex grapheme segmentation, emoji_data_python, nltk); those external
    entry points are modeled as parameters of an environment record, while
    the control flow written in the repository (the try/except wrappers, the
    filters and maps around the library calls) is embedded exactly.
-/

set_option maxRecDepth 20000

/-! ## Basic character and string utilities (Python semantics) -/

/-- Python `str` whitespace (the characters recognized by `str.strip()` and
`str.split()` with no argument, and by `\s` in the `re` module). -/
def pyIsSpace (c : Char) : Bool :=
  let n := c.toNat
  (9 ≤ n && n ≤ 13) || n == 32 || (28 ≤ n && n ≤ 31) || n == 0x85 ||
  n == 0xA0 || n == 0x1680 || (0x2000 ≤ n && n ≤ 0x200A) || n == 0x2028 ||
  n == 0x2029 || n == 0x202F || n == 0x205F || n == 0x3000

/-- Python `str.strip()` on a character list: drop whitespace from both ends. -/
def pyStripList (l : List Char) : List Char :=
  ((l.dropWhile pyIsSpace).reverse.dropWhile pyIsSpace).reverse

/-- Python `str.strip()`. -/
def pyStripStr (s : String) : String :=
  String.mk (pyStripList s.toList)

/-- Python `str.split('\n')` helper: accumulate the current piece (reversed). -/
def splitNlAux : List Char → List Char → List String
  | [], acc => [String.mk acc.reverse]
  | c :: rest, acc =>
    if c = '\n' then String.mk acc.reverse :: splitNlAux rest []
    else splitNlAux rest (c :: acc)

/-- Python `str.split('\n')` (keeps empty pieces; `"".split('\n') = [""]`). -/
def splitNl (s : String) : List String := splitNlAux s.toList []

/-- ASCII lowercase conversion, as applied by the filter's case-insensitive
containment check (the system-notice needles are pure ASCII, so ASCII folding
decides containment exactly as Python's full-Unicode `str.lower` does). -/
def lowerList (l : List Char) : List Char := l.map Char.toLower

/-- Membership of `needle` as a contiguous sublist of `hay`
(Python `needle in hay` on strings). -/
def isSubList (needle : List Char) : List Char → Bool
  | [] => needle.isEmpty
  | c :: rest => needle.isPrefixOf (c :: rest) || isSubList needle rest

/-- Case-insensitive substring test: what
`Series.str.contains(needle, case=False, regex=False)` computes per cell. -/
def containsCI (hay needle : String) : Bool :=
  isSubList (lowerList needle.toList) (lowerList hay.toList)

/-- Characters of Python `string.punctuation`
(ASCII 33-47, 58-64, 91-96, 123-126). -/
def isPunct (c : Char) : Bool :=
  let n := c.toNat
  (33 ≤ n && n ≤ 47) || (58 ≤ n && n ≤ 64) || (91 ≤ n && n ≤ 96) ||
  (123 ≤ n && n ≤ 126)

/-- Numeric value of a digit run. -/
def digitsVal (run : List Char) : Nat :=
  run.foldl (fun a c => a * 10 + (c.toNat - 48)) 0

/-- Number of whitespace-separated words (`len(s.split())` in Python):
count the positions where a non-space character follows a space or the
start of the string. -/
def countWordStarts : List Char → Bool → Nat
  | [], _ => 0
  | c :: rest, prevSpace =>
    (if prevSpace && !pyIsSpace c then 1 else 0) + countWordStarts rest (pyIsSpace c)

/-- Python `len(message.split())`, the `word_count` column. -/
def wordCount (s : String) : Nat := countWordStarts s.toList true

/-- U+200E LEFT-TO-RIGHT MARK, the invisible marker of dialect 2. -/
def lrmChar : Char := Char.ofNat 0x200E

/-- U+202F NARROW NO-BREAK SPACE, normalized to an ordinary space before
any matching (`raw_text.replace(' ', ' ')`). -/
def narrowSpaceChar : Char := Char.ofNat 0x202F

/-- The narrow-space normalization applied to the whole input. -/
def normalizeNarrow (s : String) : String :=
  String.mk (s.toList.map (fun c => if c = narrowSpaceChar then ' ' else c))

/-! ## Calendar arithmetic -/

/-- Gregorian leap year. -/
def isLeap (y : Nat) : Bool := (y % 4 == 0 && y % 100 != 0) || (y % 400 == 0)

/-- Number of days in a month. -/
def daysInMonth (y m : Nat) : Nat :=
  if m = 2 then (if isLeap y then 29 else 28)
  else if m = 4 ∨ m = 6 ∨ m = 9 ∨ m = 11 then 30
  else 31

/-- Days from 1970-01-01 to the given civil date (negative before the epoch);
the standard days-from-civil computation, written with floor division. -/
def daysFromCivil (y m d : Nat) : Int :=
  let yi : Int := if m ≤ 2 then (y : Int) - 1 else (y : Int)
  let era : Int := Int.fdiv yi 400
  let yoe : Int := yi - era * 400
  let mp : Int := Int.emod ((m : Int) + 9) 12
  let doy : Int := Int.fdiv (153 * mp + 2) 5 + (d : Int) - 1
  let doe : Int := yoe * 365 + Int.fdiv yoe 4 - Int.fdiv yoe 100 + doy
  era * 146097 + doe - 719468

/-- English day names, Monday first (what `Series.dt.day_name()` yields). -/
def dayNames : List String :=
  ["Monday", "Tuesday", "Wednesday", "Thursday", "Friday", "Saturday", "Sunday"]

/-- English month names (what `Series.dt.month_name()` yields). -/
def monthNames : List String :=
  ["January", "February", "March", "April", "May", "June", "July",
   "August", "September", "October", "November", "December"]

/-! ## Timestamps and the strptime model -/

/-- A parsed naive timestamp (the value of the `DateTime` column). -/
structure Timestamp where
  year : Nat
  month : Nat
  day : Nat
  hour : Nat
  minute : Nat
  second : Nat
deriving DecidableEq, Repr

/-- Weekday name of a timestamp (1970-01-01 was a Thursday, index 3 in the
Monday-first list). -/
def dayNameOf (t : Timestamp) : String :=
  dayNames.getD (Int.toNat (Int.emod (daysFromCivil t.year t.month t.day + 3) 7)) ""

/-- Month name of a timestamp. -/
def monthNameOf (t : Timestamp) : String := monthNames.getD (t.month - 1) ""

/-- One directive or literal of a strptime format string. -/
inductive FmtItem where
  | lit (c : Char)
  | fm   -- %m, month 1-2 digits
  | fd   -- %d, day 1-2 digits
  | fy   -- %y, exactly 2 digits, POSIX century rule
  | fY   -- %Y, exactly 4 digits
  | fH   -- %H, hour 0-23
  | fI   -- %I, hour 1-12
  | fM   -- %M, minute
  | fS   -- %S, second (strptime admits 60 and 61; rejected at construction)
  | fp   -- %p, AM/PM
deriving DecidableEq, Repr

/-- Accumulated fields during a strptime parse (strptime defaults). -/
structure PState where
  y : Nat := 1900
  mo : Nat := 1
  d : Nat := 1
  h : Nat := 0
  mi : Nat := 0
  s : Nat := 0
  twelve : Bool := false
  pm : Bool := false
deriving Repr

/-- Read a digit field: the maximal digit run must have length in
`[lo, hi]` and value in `[minV, maxV]`.  (In every format the code uses, the
character after a digit directive is a non-digit literal or the end of the
string, so the directive must consume the whole run — this mirrors the
alternation-based digit regexes of strptime exactly on those formats.) -/
def readNum (lo hi minV maxV : Nat) (cs : List Char) : Option (Nat × List Char) :=
  let run := cs.takeWhile Char.isDigit
  let v := digitsVal run
  if lo ≤ run.length && run.length ≤ hi && minV ≤ v && v ≤ maxV then
    some (v, cs.dropWhile Char.isDigit)
  else none

/-- Consume one expected literal character. -/
def pLit (c : Char) : List Char → Option (List Char)
  | x :: rest => if x = c then some rest else none
  | [] => none

/-- Run one format item over the state and remaining input. -/
def stepFmt (acc : PState × List Char) (it : FmtItem) : Option (PState × List Char) :=
  let (st, cs) := acc
  match it with
  | .lit c => (pLit c cs).map (fun r => (st, r))
  | .fm => (readNum 1 2 1 12 cs).map (fun p => ({st with mo := p.1}, p.2))
  | .fd => (readNum 1 2 1 31 cs).map (fun p => ({st with d := p.1}, p.2))
  | .fy => (readNum 2 2 0 99 cs).map
      (fun p => ({st with y := if 69 ≤ p.1 then 1900 + p.1 else 2000 + p.1}, p.2))
  | .fY => (readNum 4 4 0 9999 cs).map (fun p => ({st with y := p.1}, p.2))
  | .fH => (readNum 1 2 0 23 cs).map (fun p => ({st with h := p.1}, p.2))
  | .fI => (readNum 1 2 1 12 cs).map (fun p => ({st with h := p.1, twelve := true}, p.2))
  | .fM => (readNum 1 2 0 59 cs).map (fun p => ({st with mi := p.1}, p.2))
  | .fS => (readNum 1 2 0 61 cs).map (fun p => ({st with s := p.1}, p.2))
  | .fp =>
    match cs with
    | a :: b :: rest =>
      if (a.toLower = 'a' ∨ a.toLower = 'p') ∧ b.toLower = 'm' then
        some ({st with pm := a.toLower = 'p'}, rest)
      else none
    | _ => none

/-- Validate the parsed fields and build the timestamp: day within the month,
seconds below 60 (datetime construction), the 12-hour/AM-PM adjustment, and
the pandas `Timestamp` int64-nanosecond range. -/
def mkTimestamp (st : PState) : Option Timestamp :=
  let hour := if st.twelve then st.h % 12 + (if st.pm then 12 else 0) else st.h
  if 1 ≤ st.y ∧ st.d ≤ daysInMonth st.y st.mo ∧ st.s ≤ 59 then
    let ns : Int :=
      (daysFromCivil st.y st.mo st.d * 86400 +
        (hour : Int) * 3600 + (st.mi : Int) * 60 + (st.s : Int)) * 1000000000
    if -(2 ^ 63 - 1) ≤ ns ∧ ns ≤ 2 ^ 63 - 1 then
      some ⟨st.y, st.mo, st.d, hour, st.mi, st.s⟩
    else none
  else none

/-- Model of `pd.to_datetime(s, format=fmt)`: run the format items over the whole
string (the parse must consume the input exactly), then validate. -/
def runFmt (fmt : List FmtItem) (s : String) : Option Timestamp :=
  match fmt.foldlM stepFmt ({}, s.toList) with
  | some (st, rest) => if rest.isEmpty then mkTimestamp st else none
  | none => none

/-- Format string `%m/%d/%y %I:%M:%S %p` (primary of dialects 1 and 2). -/
def fmt_mdy12s : List FmtItem :=
  [.fm, .lit '/', .fd, .lit '/', .fy, .lit ' ', .fI, .lit ':', .fM, .lit ':',
   .fS, .lit ' ', .fp]

/-- Format string `%m/%d/%Y %I:%M:%S %p` (fallback of dialects 1 and 2). -/
def fmt_mdY12s : List FmtItem :=
  [.fm, .lit '/', .fd, .lit '/', .fY, .lit ' ', .fI, .lit ':', .fM, .lit ':',
   .fS, .lit ' ', .fp]

/-- Format string `%d/%m/%Y %H:%M` (primary of dialect 3, fallback of 4). -/
def fmt_dmY24 : List FmtItem :=
  [.fd, .lit '/', .fm, .lit '/', .fY, .lit ' ', .fH, .lit ':', .fM]

/-- Format string `%d/%m/%y %H:%M` (primary of dialect 4). -/
def fmt_dmy24 : List FmtItem :=
  [.fd, .lit '/', .fm, .lit '/', .fy, .lit ' ', .fH, .lit ':', .fM]

/-- Format string `%m/%d/%y %I:%M %p` (primary of dialect 5). -/
def fmt_mdy12 : List FmtItem :=
  [.fm, .lit '/', .fd, .lit '/', .fy, .lit ' ', .fI, .lit ':', .fM, .lit ' ', .fp]

/-- Format string `%Y-%m-%d %H:%M:%S` (primary of dialect 6). -/
def fmt_Ymd24s : List FmtItem :=
  [.fY, .lit '-', .fm, .lit '-', .fd, .lit ' ', .fH, .lit ':', .fM, .lit ':', .fS]

/-- Format string `%d.%m.%y %H:%M` (primary of dialect 7). -/
def fmt_dmy24dot : List FmtItem :=
  [.fd, .lit '.', .fm, .lit '.', .fy, .lit ' ', .fH, .lit ':', .fM]

/-- Format string `%d.%m.%Y %H:%M` (fallback of dialect 7). -/
def fmt_dmY24dot : List FmtItem :=
  [.fd, .lit '.', .fm, .lit '.', .fY, .lit ' ', .fH, .lit ':', .fM]

/-- Entry `date_formats[i]`: the primary format of pattern index `i` (0-based). -/
def primaryFmtAt : Nat → List FmtItem
  | 0 => fmt_mdy12s
  | 1 => fmt_mdy12s
  | 2 => fmt_dmY24
  | 3 => fmt_dmy24
  | 4 => fmt_mdy12
  | 5 => fmt_Ymd24s
  | 6 => fmt_dmy24dot
  | _ => []

/-- The 4-digit-year fallback format tried when the primary fails
(`i in [0, 1]`, `i == 3`, `i == 6`; all other indices `continue`). -/
def altFmtAt : Nat → Option (List FmtItem)
  | 0 => some fmt_mdY12s
  | 1 => some fmt_mdY12s
  | 3 => some fmt_dmY24
  | 6 => some fmt_dmY24dot
  | _ => none

/-- Timestamp resolution for a line matched by pattern `i`: the primary
format first; exactly on its failure, the fallback format when one is
defined. -/
def resolveTimestamp (i : Nat) (s : String) : Option Timestamp :=
  match runFmt (primaryFmtAt i) s with
  | some dt => some dt
  | none =>
    match altFmtAt i with
    | some f => runFmt f s
    | none => none

/-! ## The dialect patterns (Format Matcher) -/

/-- Captures of one successful `re.match` against a dialect pattern. -/
structure RawMatch where
  date : String
  time : String
  sender : String
  message : String
deriving DecidableEq, Repr

/-- Digit group `\d{lo,hi}` followed (in every pattern of the code) by a non-digit:
the maximal digit run, whose length must lie in `[lo, hi]`. -/
def pDigits (lo hi : Nat) (cs : List Char) : Option (List Char × List Char) :=
  let run := cs.takeWhile Char.isDigit
  if lo ≤ run.length && run.length ≤ hi then
    some (run, cs.dropWhile Char.isDigit)
  else none

/-- Group `[AP]M`: one of `A`/`P` followed by `M`. -/
def pAmPmChar : List Char → Option (Char × List Char)
  | a :: 'M' :: rest => if a = 'A' ∨ a = 'P' then some (a, rest) else none
  | _ => none

/-- Consume a sequence of expected literal characters. -/
def pToks : List Char → List Char → Option (List Char)
  | [], cs => some cs
  | p :: ps, cs =>
    match cs with
    | c :: rest => if c = p then pToks ps rest else none
    | [] => none

/-- Date shape `\d{1,2}<sep>\d{1,2}<sep>\d{lo,hi}`: a slash- or dot-separated date;
returns the capture text. -/
def pDate3 (sep : Char) (lo hi : Nat) (cs : List Char) :
    Option (String × List Char) := do
  let (d1, cs) ← pDigits 1 2 cs
  let cs ← pLit sep cs
  let (d2, cs) ← pDigits 1 2 cs
  let cs ← pLit sep cs
  let (d3, cs) ← pDigits lo hi cs
  return (String.mk (d1 ++ sep :: d2 ++ sep :: d3), cs)

/-- Date shape `\d{4}-\d{2}-\d{2}`: the ISO date of pattern 6. -/
def pDateIso (cs : List Char) : Option (String × List Char) := do
  let (d1, cs) ← pDigits 4 4 cs
  let cs ← pLit '-' cs
  let (d2, cs) ← pDigits 2 2 cs
  let cs ← pLit '-' cs
  let (d3, cs) ← pDigits 2 2 cs
  return (String.mk (d1 ++ '-' :: d2 ++ '-' :: d3), cs)

/-- Time shape `\d{hlo,hhi}:\d{2}`: hours and minutes; returns the capture text. -/
def pTimeHM (hlo hhi : Nat) (cs : List Char) : Option (String × List Char) := do
  let (h, cs) ← pDigits hlo hhi cs
  let cs ← pLit ':' cs
  let (mi, cs) ← pDigits 2 2 cs
  return (String.mk (h ++ ':' :: mi), cs)

/-- Time shape `\d{hlo,hhi}:\d{2}:\d{2}`: hours, minutes and seconds. -/
def pTimeHMS (hlo hhi : Nat) (cs : List Char) : Option (String × List Char) := do
  let (t, cs) ← pTimeHM hlo hhi cs
  let cs ← pLit ':' cs
  let (se, cs) ← pDigits 2 2 cs
  return (t ++ String.mk (':' :: se), cs)

/-- Time shape `\d{1,2}:\d{2}:\d{2} [AP]M`: the 12-hour time-with-seconds capture. -/
def pTime12s (cs : List Char) : Option (String × List Char) := do
  let (t, cs) ← pTimeHMS 1 2 cs
  let cs ← pLit ' ' cs
  let (ap, cs) ← pAmPmChar cs
  return (t ++ String.mk [' ', ap, 'M'], cs)

/-- Time shape `\d{1,2}:\d{2} [AP]M`: the 12-hour time-without-seconds capture. -/
def pTime12 (cs : List Char) : Option (String × List Char) := do
  let (t, cs) ← pTimeHM 1 2 cs
  let cs ← pLit ' ' cs
  let (ap, cs) ← pAmPmChar cs
  return (t ++ String.mk [' ', ap, 'M'], cs)

/-- The common tail `([^:]+): (.+)` of every dialect pattern: the sender is
the (non-empty) run up to the first colon, which must be followed by a
space; the message is the (non-empty) run of non-newline characters after
that space (`re.match` only anchors at the start, and `.` does not cross a
newline). -/
def senderMessage (cs : List Char) : Option (String × String) :=
  match cs.dropWhile (fun c => c ≠ ':') with
  | ':' :: ' ' :: rest =>
    if (cs.takeWhile (fun c => c ≠ ':')).isEmpty ||
        (rest.takeWhile (fun c => c ≠ '\n')).isEmpty then none
    else some (String.mk (cs.takeWhile (fun c => c ≠ ':')),
               String.mk (rest.takeWhile (fun c => c ≠ '\n')))
  | _ => none

/-- Header of pattern 1: `\[(\d{1,2}/\d{1,2}/\d{2,4}), (\d{1,2}:\d{2}:\d{2}
[AP]M)\] ` — returns the date capture, the time capture, and the rest. -/
def header1 (cs : List Char) : Option (String × String × List Char) := do
  let cs ← pLit '[' cs
  let (d, cs) ← pDate3 '/' 2 4 cs
  let cs ← pToks [',', ' '] cs
  let (t, cs) ← pTime12s cs
  let cs ← pToks [']', ' '] cs
  return (d, t, cs)

/-- Header of pattern 3: `(\d{1,2}/\d{1,2}/\d{4}), (\d{1,2}:\d{2}) - `. -/
def header3 (cs : List Char) : Option (String × String × List Char) := do
  let (d, cs) ← pDate3 '/' 4 4 cs
  let cs ← pToks [',', ' '] cs
  let (t, cs) ← pTimeHM 1 2 cs
  let cs ← pToks [' ', '-', ' '] cs
  return (d, t, cs)

/-- Header of pattern 4: `(\d{1,2}/\d{1,2}/\d{2}), (\d{1,2}:\d{2}) - `. -/
def header4 (cs : List Char) : Option (String × String × List Char) := do
  let (d, cs) ← pDate3 '/' 2 2 cs
  let cs ← pToks [',', ' '] cs
  let (t, cs) ← pTimeHM 1 2 cs
  let cs ← pToks [' ', '-', ' '] cs
  return (d, t, cs)

/-- Header of pattern 5: `(\d{1,2}/\d{1,2}/\d{2,4}), (\d{1,2}:\d{2} [AP]M) - `. -/
def header5 (cs : List Char) : Option (String × String × List Char) := do
  let (d, cs) ← pDate3 '/' 2 4 cs
  let cs ← pToks [',', ' '] cs
  let (t, cs) ← pTime12 cs
  let cs ← pToks [' ', '-', ' '] cs
  return (d, t, cs)

/-- Header of pattern 6: `(\d{4}-\d{2}-\d{2}) (\d{2}:\d{2}:\d{2}) - `. -/
def header6 (cs : List Char) : Option (String × String × List Char) := do
  let (d, cs) ← pDateIso cs
  let cs ← pLit ' ' cs
  let (t, cs) ← pTimeHMS 2 2 cs
  let cs ← pToks [' ', '-', ' '] cs
  return (d, t, cs)

/-- Header of pattern 7: `(\d{1,2}\.\d{1,2}\.\d{2,4}), (\d{1,2}:\d{2}) - `. -/
def header7 (cs : List Char) : Option (String × String × List Char) := do
  let (d, cs) ← pDate3 '.' 2 4 cs
  let cs ← pToks [',', ' '] cs
  let (t, cs) ← pTimeHM 1 2 cs
  let cs ← pToks [' ', '-', ' '] cs
  return (d, t, cs)

/-- Attach the common sender/message tail to a dialect header. -/
def withSender (hdr : List Char → Option (String × String × List Char))
    (cs : List Char) : Option RawMatch :=
  match hdr cs with
  | none => none
  | some (d, t, rest) =>
    match senderMessage rest with
    | none => none
    | some (snd, msg) => some ⟨d, t, snd, msg⟩

/-- Pattern 2 (`‎?\[...`): pattern 1 with an optional leading U+200E.  The
marker branch is tried first; when the first character is the marker the
body must follow it, otherwise the body must start the line. -/
def pattern2 (cs : List Char) : Option RawMatch :=
  match cs with
  | c :: rest =>
    if c = lrmChar then withSender header1 rest else withSender header1 cs
  | [] => none

/-- Model of `re.match(patterns[i], line)`: the dialect pattern at (0-based) index `i`. -/
def patternAt : Nat → List Char → Option RawMatch
  | 0, cs => withSender header1 cs
  | 1, cs => pattern2 cs
  | 2, cs => withSender header3 cs
  | 3, cs => withSender header4 cs
  | 4, cs => withSender header5 cs
  | 5, cs => withSender header6 cs
  | 6, cs => withSender header7 cs
  | _, _ => none

/-- The pattern priority order of the `patterns` list. -/
def patIdxs : List Nat := [0, 1, 2, 3, 4, 5, 6]

/-- Model of `any(re.match(p, line) for p in patterns)`. -/
def anyPatternMatches (line : String) : Bool :=
  patIdxs.any (fun i => (patternAt i line.toList).isSome)

/-! ## Records and the line loop (Line Reassembler) -/

/-- One entry of the `data` list: `DateTime`, `person`, `message`. -/
structure Record where
  dateTime : Timestamp
  person : String
  message : String
deriving DecidableEq, Repr

/-- One iteration of the pattern loop: on a regex match, resolve the
timestamp (primary format, then fallback) and build the record with trimmed
sender and trimmed message; `none` both when the regex does not match and
when every format fails (the loop then continues with the next pattern). -/
def tryOne (i : Nat) (cs : List Char) : Option Record :=
  match patternAt i cs with
  | none => none
  | some m =>
    match resolveTimestamp i (m.date ++ " " ++ m.time) with
    | some dt => some ⟨dt, pyStripStr m.sender, pyStripStr m.message⟩
    | none => none

/-- The pattern loop over the indices `is`: first success wins. -/
def tryIdxs : List Nat → List Char → Option Record
  | [], _ => none
  | i :: rest, cs =>
    match tryOne i cs with
    | some r => some r
    | none => tryIdxs rest cs

/-- The full pattern loop over one line. -/
def findRecord (line : String) : Option Record := tryIdxs patIdxs line.toList

/-- Model of `data[-1]["message"] += suffix`. -/
def appendToLast : List Record → String → List Record
  | [], _ => []
  | [r], suffix => [{r with message := r.message ++ suffix}]
  | r :: rs, suffix => r :: appendToLast rs suffix

/-- Model of `line.startswith('[')`. -/
def startsBracket (line : String) : Bool :=
  match line.toList with
  | '[' :: _ => true
  | _ => false

/-- Model of `line.startswith('‎[')`. -/
def startsLrmBracket (line : String) : Bool :=
  match line.toList with
  | a :: '[' :: _ => a = lrmChar
  | _ => false

/-- The body of the per-line loop: skip blank lines; append a record when
some pattern matches and its timestamp resolves; otherwise fall to the
continuation branch, which extends the last record only when at least one
record exists, no pattern matches the line at all, and the line does not
start with `[` or `‎[`. -/
def processLine (data : List Record) (line : String) : List Record :=
  if (pyStripStr line).isEmpty then data
  else
    match findRecord line with
    | some r => data ++ [r]
    | none =>
      if !data.isEmpty && !(pyStripStr line).isEmpty && !anyPatternMatches line then
        if !startsBracket line && !startsLrmBracket line then
          appendToLast data ("\n" ++ pyStripStr line)
        else data
      else data

/-- The pre-filter record sequence: normalize the narrow space, strip the
whole text, split on newlines, and run the line loop. -/
def parseRecords (raw : String) : List Record :=
  (splitNl (pyStripStr (normalizeNarrow raw))).foldl processLine []

/-! ## Content Filter -/

/-- The fixed `system_messages` list. -/
def system_messages : List String :=
  ["omitted", "deleted", "missed voice call", "missed video call",
   "end-to-end encrypted", "you deleted this message", "this message was deleted",
   "messages and calls are end-to-end encrypted", "image omitted", "video omitted",
   "audio omitted", "document omitted", "contact omitted", "location omitted",
   "sticker omitted", "gif omitted"]

/-- The mask entry of one record: start from `True` and AND in the negated
case-insensitive containment of every notice string. -/
def keepMessage (r : Record) : Bool :=
  system_messages.foldl (fun acc s => acc && !containsCI r.message s) true

/-- Model of `df[mask]`: keep exactly the rows whose mask entry is true. -/
def filterRecords (l : List Record) : List Record := l.filter keepMessage

/-! ## Emoji extraction and tokenization (external libraries as parameters) -/

/-- External dependencies of `_extract_emojis`: grapheme-cluster splitting
(`regex.findall(r'\X', text)`, which may fail) and the emoji-data
membership test for one character. -/
structure EmojiEnv where
  graphemes : String → Except String (List String)
  isEmoji : Char → Bool

/-- Model of `_extract_emojis`: keep the grapheme clusters containing an emoji
character; the surrounding try/except turns any failure into `[]`. -/
def extract_emojis (env : EmojiEnv) (text : String) : List String :=
  match env.graphemes text with
  | .error _ => []
  | .ok data => data.filter (fun w => w.toList.any env.isEmoji)

/-- External dependencies of `_get_tokens`: `nltk.word_tokenize` (which may
fail), the English stop-word list, and the Porter stemmer. -/
structure TokenizerEnv where
  word_tokenize : String → Except String (List String)
  stopwords : List String
  stem : String → String

/-- Model of `text.lower()` (ASCII folding; see `lowerList`). -/
def lowerStr (s : String) : String := String.mk (lowerList s.toList)

/-- Model of `lowers.translate(remove_punctuation_map)`: delete every
`string.punctuation` character. -/
def removePunct (s : String) : String :=
  String.mk (s.toList.filter (fun c => !isPunct c))

/-- Model of `_get_tokens`: lowercase, strip punctuation, tokenize, drop stop words,
stem; the surrounding try/except turns any failure into `[]`. -/
def get_tokens (env : TokenizerEnv) (text : String) : List String :=
  match env.word_tokenize (removePunct (lowerStr text)) with
  | .error _ => []
  | .ok tokens =>
    (tokens.filter (fun w => !env.stopwords.contains w)).map env.stem

/-! ## Feature Deriver -/

/-- Model of `re.findall(r'(https?://\S+)', s)` at one position: the scheme followed
by a maximal non-empty run of non-whitespace; returns the rest after the
match. -/
def urlMatchAt (cs : List Char) : Option (List Char) :=
  match cs with
  | 'h' :: 't' :: 't' :: 'p' :: rest =>
    let after : Option (List Char) :=
      match rest with
      | 's' :: ':' :: '/' :: '/' :: r => some r
      | ':' :: '/' :: '/' :: r => some r
      | _ => none
    match after with
    | none => none
    | some r =>
      let run := r.takeWhile (fun c => !pyIsSpace c)
      if run.isEmpty then none
      else some (r.dropWhile (fun c => !pyIsSpace c))
  | _ => none

/-- Left-to-right non-overlapping scan of `re.findall`, counting matches;
the fuel starts at the string length and every step consumes at least one
character. -/
def countUrlsAux : Nat → List Char → Nat
  | 0, _ => 0
  | Nat.succ fuel, cs =>
    match cs with
    | [] => 0
    | c :: rest =>
      match urlMatchAt (c :: rest) with
      | some after => 1 + countUrlsAux fuel after
      | none => countUrlsAux fuel rest

/-- The `urlcount` column: `len(re.findall(url_pattern, x))`. -/
def countUrls (s : String) : Nat := countUrlsAux s.length s.toList

/-- A record with all derived columns attached. -/
structure Enriched where
  dateTime : Timestamp
  person : String
  message : String
  weekday : String
  month : String
  year : Nat
  date : Nat × Nat × Nat
  time : Nat × Nat × Nat
  letter_count : Nat
  word_count : Nat
  urlcount : Nat
  emoji : List String
deriving DecidableEq, Repr

/-- The Feature Deriver on one record: the column assignments of
`parse_chat` after filtering. -/
def enrich (env : EmojiEnv) (r : Record) : Enriched :=
  { dateTime := r.dateTime
    person := r.person
    message := r.message
    weekday := dayNameOf r.dateTime
    month := monthNameOf r.dateTime
    year := r.dateTime.year
    date := (r.dateTime.year, r.dateTime.month, r.dateTime.day)
    time := (r.dateTime.hour, r.dateTime.minute, r.dateTime.second)
    letter_count := r.message.length
    word_count := wordCount r.message
    urlcount := countUrls r.message
    emoji := extract_emojis env r.message }

/-- Enrichment of a whole record sequence (per-row `apply`/`dt` accessors). -/
def enrichAll (env : EmojiEnv) (l : List Record) : List Enriched :=
  l.map (enrich env)

/-- Recompute every derived column of an already-enriched record from its
base fields. -/
def reDerive (env : EmojiEnv) (e : Enriched) : Enriched :=
  enrich env ⟨e.dateTime, e.person, e.message⟩

/-- The tuple of derived (non-base) fields. -/
def derivedFields (e : Enriched) :=
  (e.weekday, e.month, e.year, e.date, e.time, e.letter_count, e.word_count,
   e.urlcount, e.emoji)

/-! ## Whole-input parse -/

/-- The two whole-input failures of `parse_chat` (the two distinct
`ValueError`s). -/
inductive ParseError where
  | EmptyChat
  | NoMessagesAfterFiltering
deriving DecidableEq, Repr

/-- Model of `parse_chat`: build the record list; fail with `EmptyChat` when it is
empty; filter system messages; fail with `NoMessagesAfterFiltering` when
nothing remains; otherwise enrich and return. -/
def parse_chat (env : EmojiEnv) (raw : String) : Except ParseError (List Enriched) :=
  let data := parseRecords raw
  if data.isEmpty then .error .EmptyChat
  else
    let df := filterRecords data
    if df.isEmpty then .error .NoMessagesAfterFiltering
    else .ok (enrichAll env df)

/-- A concrete environment for evaluating examples: every character is its
own cluster and nothing is an emoji. -/
def plainEnv : EmojiEnv :=
  { graphemes := fun s => .ok (s.toList.map (fun c => String.mk [c]))
    isEmoji := fun _ => false }

/-- A grapheme-segmentation environment whose library call always fails. -/
def failG : EmojiEnv :=
  { graphemes := fun _ => .error "regex failure", isEmoji := fun _ => false }

/-- A tokenizer environment whose library call always fails. -/
def failT : TokenizerEnv :=
  { word_tokenize := fun _ => .error "nltk failure", stopwords := [], stem := id }

/-! ## Supporting lemmas -/

/-- Stripping is a sublist operation: `pyStripList l` is a sublist of `l`. -/
theorem pyStripList_sublist (l : List Char) : List.Sublist (pyStripList l) l := by
  have h1 : List.Sublist (l.dropWhile pyIsSpace) l := List.dropWhile_sublist _
  have h2 : List.Sublist ((l.dropWhile pyIsSpace).reverse.dropWhile pyIsSpace)
      (l.dropWhile pyIsSpace).reverse := List.dropWhile_sublist _
  have h3 := h2.reverse
  rw [List.reverse_reverse] at h3
  exact h3.trans h1

/-- Every character of a stripped string occurs in the original string. -/
theorem mem_of_mem_pyStripStr {c : Char} {s : String}
    (h : c ∈ (pyStripStr s).toList) : c ∈ s.toList :=
  (pyStripList_sublist s.toList).subset h

/-- The sender produced by the common `([^:]+): (.+)` tail contains no
colon. -/
theorem senderMessage_no_colon {cs : List Char} {snd msg : String}
    (h : senderMessage cs = some (snd, msg)) :
    ∀ c ∈ snd.toList, c ≠ ':' := by
  unfold senderMessage at h
  split at h
  · split at h
    · exact nomatch h
    · injection h with h'
      injection h' with h1 h2
      intro c hc
      rw [← h1] at hc
      have hc' : c ∈ cs.takeWhile (fun c => decide (c ≠ ':')) := hc
      exact of_decide_eq_true
        (List.mem_takeWhile_imp (p := fun c => decide (c ≠ ':')) hc')
  · exact nomatch h

/-- The sender of any `withSender` match contains no colon. -/
theorem withSender_no_colon {hdr : List Char → Option (String × String × List Char)}
    {cs : List Char} {m : RawMatch} (h : withSender hdr cs = some m) :
    ∀ c ∈ m.sender.toList, c ≠ ':' := by
  unfold withSender at h
  split at h
  · exact nomatch h
  · split at h
    · exact nomatch h
    · rename_i d t rest snd msg hs
      injection h with h'
      subst h'
      exact senderMessage_no_colon hs

/-- The sender captured by any of the seven dialect patterns contains no
colon. -/
theorem patternAt_no_colon : ∀ {i : Nat} {cs : List Char} {m : RawMatch},
    patternAt i cs = some m → ∀ c ∈ m.sender.toList, c ≠ ':'
  | 0, _, _, h => withSender_no_colon h
  | 1, cs, m, h => by
    have h' : pattern2 cs = some m := h
    unfold pattern2 at h'
    split at h'
    · split at h' <;> exact withSender_no_colon h'
    · exact nomatch h'
  | 2, _, _, h => withSender_no_colon h
  | 3, _, _, h => withSender_no_colon h
  | 4, _, _, h => withSender_no_colon h
  | 5, _, _, h => withSender_no_colon h
  | 6, _, _, h => withSender_no_colon h
  | n + 7, _, _, h => nomatch h

/-- A record built by one loop iteration takes its person and message from
the trimmed captures of that iteration's pattern match. -/
theorem tryOne_fields {i : Nat} {cs : List Char} {r : Record}
    (h : tryOne i cs = some r) :
    ∃ m, patternAt i cs = some m ∧ r.person = pyStripStr m.sender ∧
      r.message = pyStripStr m.message := by
  unfold tryOne at h
  split at h
  next => exact nomatch h
  next m hp =>
    split at h
    next dt hr =>
      injection h with h'
      subst h'
      exact ⟨m, hp, rfl, rfl⟩
    next => exact nomatch h

/-- When the regex does not match, the loop iteration yields nothing. -/
theorem tryOne_eq_none {i : Nat} {cs : List Char}
    (h : patternAt i cs = none) : tryOne i cs = none := by
  unfold tryOne
  rw [h]

/-- Any record returned by the pattern loop takes its person from the
stripped sender of some pattern match. -/
theorem tryIdxs_person {is : List Nat} {cs : List Char} {r : Record}
    (h : tryIdxs is cs = some r) :
    ∃ i m, patternAt i cs = some m ∧ r.person = pyStripStr m.sender := by
  induction is with
  | nil => exact nomatch h
  | cons i rest ih =>
    rw [tryIdxs] at h
    cases ht : tryOne i cs with
    | none =>
      rw [ht] at h
      exact ih h
    | some r' =>
      rw [ht] at h
      have h' : r' = r := Option.some.inj h
      subst h'
      obtain ⟨m, hp, hperson, _⟩ := tryOne_fields ht
      exact ⟨i, m, hp, hperson⟩

/-- If no pattern in the list matches, the pattern loop returns nothing. -/
theorem tryIdxs_eq_none {is : List Nat} {cs : List Char}
    (h : ∀ i ∈ is, patternAt i cs = none) : tryIdxs is cs = none := by
  induction is with
  | nil => rfl
  | cons i rest ih =>
    rw [tryIdxs, tryOne_eq_none (h i (List.mem_cons_self i rest))]
    exact ih (fun j hj => h j (List.mem_cons_of_mem _ hj))

/-- If no dialect pattern matches the line, the whole per-line matching
loop produces no record. -/
theorem findRecord_eq_none {line : String} (h : anyPatternMatches line = false) :
    findRecord line = none := by
  apply tryIdxs_eq_none
  intro i hi
  have hx := List.any_eq_false.mp h i hi
  exact Option.not_isSome_iff_eq_none.mp (by simpa using hx)

/-- The filter mask built by the fold over `system_messages` equals the
conjunction of the negated containment tests. -/
theorem keepMessage_foldl (m : String) (msgs : List String) (b : Bool) :
    msgs.foldl (fun acc s => acc && !containsCI m s) b =
      (b && !msgs.any (fun s => containsCI m s)) := by
  induction msgs generalizing b with
  | nil => simp
  | cons s rest ih =>
    rw [List.foldl_cons, ih]
    simp [Bool.and_assoc]

/-! ## Claim theorems -/

/-- Claim C5 (confirmed): the Content Filter removes exactly the records
whose message body, compared case-insensitively, contains some string of
the fixed system-notice list as an unanchored substring.  In particular a
record whose body is exactly "image omitted" in any casing is removed, and
a record whose body merely contains "omitted" inside ordinary text is
removed, while an ordinary record survives. -/
theorem c5_system_filter :
    (∀ r : Record, keepMessage r = false ↔
        ∃ s ∈ system_messages, containsCI r.message s = true) ∧
    (∀ l : List Record, filterRecords l =
        l.filter (fun r => !system_messages.any (fun s => containsCI r.message s))) ∧
    filterRecords [⟨⟨2023, 1, 2, 15, 4, 5⟩, "Alice", "Image OMITTED"⟩] = [] ∧
    filterRecords [⟨⟨2023, 1, 2, 15, 4, 5⟩, "Alice", "he omitted the details"⟩] = [] ∧
    filterRecords [⟨⟨2023, 1, 2, 15, 4, 5⟩, "Alice", "hello there"⟩] =
      [⟨⟨2023, 1, 2, 15, 4, 5⟩, "Alice", "hello there"⟩] := by
  refine ⟨?_, ?_, by decide, by decide, by decide⟩
  · intro r
    unfold keepMessage
    rw [keepMessage_foldl]
    simp
  · intro l
    unfold filterRecords
    refine List.filter_congr ?_
    intro r _
    unfold keepMessage
    rw [keepMessage_foldl]
    simp

/-- Claim C5 witness: the characterization applied to a concrete removed
record. -/
theorem c5_witness :
    keepMessage ⟨⟨2023, 1, 2, 15, 4, 5⟩, "Alice", "Image OMITTED"⟩ = false :=
  (c5_system_filter.1 ⟨⟨2023, 1, 2, 15, 4, 5⟩, "Alice", "Image OMITTED"⟩).mpr
    ⟨"omitted", by decide, by decide⟩

/-- Claim C6 (confirmed): for every input, the post-filter record sequence
is a sublist (subsequence, same relative order) of the pre-filter record
sequence — filtering never reorders the survivors. -/
theorem c6_filter_preserves_order (raw : String) :
    List.Sublist (filterRecords (parseRecords raw)) (parseRecords raw) :=
  List.filter_sublist _

/-- Claim C7 (confirmed): a line that matches no dialect pattern and
arrives while the accumulator is still empty is silently dropped — it
produces no record and extends nothing, because the continuation branch is
guarded by the non-emptiness of the accumulator. -/
theorem c7_leading_continuation_dropped (line : String)
    (h : anyPatternMatches line = false) : processLine [] line = [] := by
  unfold processLine
  split
  · rfl
  · rw [findRecord_eq_none h]
    rfl

/-- Claim C7 witness: the continuation-shaped line "world" before any
record. -/
theorem c7_witness : processLine [] "world" = [] :=
  c7_leading_continuation_dropped "world" (by decide)

/-- Claim C10 (confirmed): a record produced from a line matched by a
dialect pattern has a sender containing no colon character — every dialect
pattern captures the sender with `[^:]+`, so the matched line is split at
the first colon after the timestamp. -/
theorem c10_sender_no_colon (line : String) (r : Record)
    (h : findRecord line = some r) :
    r.person.toList.all (fun c => !(c == ':')) = true := by
  apply List.all_eq_true.mpr
  intro c hc
  obtain ⟨i, m, hp, hperson⟩ := tryIdxs_person h
  rw [hperson] at hc
  have hne := patternAt_no_colon hp c (mem_of_mem_pyStripStr hc)
  simpa using hne

/-- Claim C10 witness: the sender captured from a concrete matched line. -/
theorem c10_witness :
    (Record.person ⟨⟨2023, 1, 2, 15, 4, 5⟩, "Alice", "Hello"⟩).toList.all
      (fun c => !(c == ':')) = true :=
  c10_sender_no_colon "[1/2/23, 3:04:05 PM] Alice: Hello"
    ⟨⟨2023, 1, 2, 15, 4, 5⟩, "Alice", "Hello"⟩ (by decide)

/-- Claim C1 counterexample: the second line `1/2/23, 24:05 - Bob: Hi`
matches dialect pattern 4 (index 3) but its timestamp fails both the
primary and the fallback format (hour 24), it does not start a bracketed
line, and a record already exists — yet the code leaves the previous body
at "Hello" instead of appending the line as a continuation, because the
continuation branch requires that no pattern match the line at all. -/
theorem c1_counterexample :
    parseRecords "[1/2/23, 3:04:05 PM] Alice: Hello\n1/2/23, 24:05 - Bob: Hi" =
      [⟨⟨2023, 1, 2, 15, 4, 5⟩, "Alice", "Hello"⟩] ∧
    (patternAt 3 (String.toList "1/2/23, 24:05 - Bob: Hi")).isSome = true ∧
    resolveTimestamp 3 "1/2/23 24:05" = none ∧
    findRecord "1/2/23, 24:05 - Bob: Hi" = none ∧
    startsBracket "1/2/23, 24:05 - Bob: Hi" = false ∧
    startsLrmBracket "1/2/23, 24:05 - Bob: Hi" = false := by
  refine ⟨by decide, by decide, by decide, by decide, by decide, by decide⟩

/-- Claim C1 (corrected): a non-blank line is treated as a continuation
(appending newline plus the trimmed line to the last record's body) only
when NO dialect pattern matches it, at least one record exists, and the
line does not start with a bracket or the invisible-marker-plus-bracket; a
line that some pattern matches but whose timestamp normalization fails on
every applicable format is dropped without extending anything.  The
two-line Hello/world input yields one record with body "Hello\nworld". -/
theorem c1_continuation_behavior :
    (∀ (data : List Record) (line : String), data ≠ [] →
        (pyStripStr line).isEmpty = false → anyPatternMatches line = false →
        startsBracket line = false → startsLrmBracket line = false →
        processLine data line = appendToLast data ("\n" ++ pyStripStr line)) ∧
    (∀ (data : List Record) (line : String), findRecord line = none →
        anyPatternMatches line = true → processLine data line = data) ∧
    parseRecords "[1/2/23, 3:04:05 PM] Alice: Hello\nworld" =
      [⟨⟨2023, 1, 2, 15, 4, 5⟩, "Alice", "Hello\nworld"⟩] := by
  refine ⟨?_, ?_, by decide⟩
  · intro data line hd hs hm hb1 hb2
    unfold processLine
    rw [findRecord_eq_none hm]
    simp [hs, hm, hb1, hb2, List.isEmpty_eq_false.mpr hd]
  · intro data line hf hm
    unfold processLine
    split
    · rfl
    · rw [hf]
      simp [hm]

/-- Claim C1 witness: a no-pattern continuation line extends the last
record. -/
theorem c1_witness :
    processLine [⟨⟨2023, 1, 2, 15, 4, 5⟩, "Alice", "Hello"⟩] "world" =
      appendToLast [⟨⟨2023, 1, 2, 15, 4, 5⟩, "Alice", "Hello"⟩]
        ("\n" ++ pyStripStr "world") :=
  c1_continuation_behavior.1 [⟨⟨2023, 1, 2, 15, 4, 5⟩, "Alice", "Hello"⟩]
    "world" (by decide) (by decide) (by decide) (by decide) (by decide)

/-- Claim C2 counterexample: the line `[1/2/23, 3:04:05 PM] Alice:  `
(message field a single space) matches dialect 1, and the record is
appended with an empty trimmed body rather than dropped; the body survives
the filter, so `parse_chat` returns a record whose message is empty after
trimming. -/
theorem c2_counterexample :
    (parse_chat plainEnv
        "[1/2/23, 3:04:05 PM] Alice:  \n[1/2/23, 3:04:06 PM] Bob: hi").map
      (fun l => l.map (fun e => e.message)) = .ok ["", "hi"] ∧
    pyStripStr "" = "" := ⟨rfl, rfl⟩

/-- Claim C2 (corrected): the parser performs no emptiness check on the
matched message field — every non-blank line for which some pattern
matches and the timestamp resolves is appended as a record carrying the
trimmed captures, even when the trimmed message is empty. -/
theorem c2_matched_lines_always_appended (data : List Record) (line : String)
    (r : Record) (hs : (pyStripStr line).isEmpty = false)
    (hf : findRecord line = some r) : processLine data line = data ++ [r] := by
  unfold processLine
  simp [hs, hf]

/-- Claim C2 witness: the whitespace-message line is appended with empty
body. -/
theorem c2_witness :
    processLine [] "[1/2/23, 3:04:05 PM] Alice:  " =
      [] ++ [⟨⟨2023, 1, 2, 15, 4, 5⟩, "Alice", ""⟩] :=
  c2_matched_lines_always_appended [] "[1/2/23, 3:04:05 PM] Alice:  "
    ⟨⟨2023, 1, 2, 15, 4, 5⟩, "Alice", ""⟩ (by decide) (by decide)

/-- Claim C3 (confirmed): timestamp resolution tries the dialect's primary
format and, exactly when it fails, exactly one fallback format; the
fallback exists precisely for pattern indices 0, 1, 3, 6 (dialects 1, 2,
4, 7) and reinterprets the year as 4-digit, while dialects 3, 5, 6 have
none.  A dialect-1 line with a 4-digit year fails the primary 2-digit-year
format and parses via the fallback to the same calendar date as its
2-digit spelling. -/
theorem c3_fallback_year_formats :
    (∀ (i : Nat) (s : String) (dt : Timestamp),
        runFmt (primaryFmtAt i) s = some dt → resolveTimestamp i s = some dt) ∧
    (∀ (i : Nat) (s : String) (f : List FmtItem), altFmtAt i = some f →
        runFmt (primaryFmtAt i) s = none → resolveTimestamp i s = runFmt f s) ∧
    (∀ (i : Nat) (s : String), altFmtAt i = none →
        runFmt (primaryFmtAt i) s = none → resolveTimestamp i s = none) ∧
    (altFmtAt 0 = some fmt_mdY12s ∧ altFmtAt 1 = some fmt_mdY12s ∧
      altFmtAt 3 = some fmt_dmY24 ∧ altFmtAt 6 = some fmt_dmY24dot ∧
      altFmtAt 2 = none ∧ altFmtAt 4 = none ∧ altFmtAt 5 = none) ∧
    (runFmt fmt_mdy12s "1/2/2023 3:04:05 PM" = none ∧
      resolveTimestamp 0 "1/2/2023 3:04:05 PM" = some ⟨2023, 1, 2, 15, 4, 5⟩ ∧
      resolveTimestamp 0 "1/2/23 3:04:05 PM" = some ⟨2023, 1, 2, 15, 4, 5⟩) := by
  refine ⟨?_, ?_, ?_, by decide, by decide⟩
  · intro i s dt h
    unfold resolveTimestamp
    rw [h]
  · intro i s f hf h
    unfold resolveTimestamp
    rw [h, hf]
  · intro i s hf h
    unfold resolveTimestamp
    rw [h, hf]

/-- Claim C3 witness: a successful primary parse is returned unchanged. -/
theorem c3_witness :
    resolveTimestamp 2 "1/2/2023 3:04" = some ⟨2023, 2, 1, 3, 4, 0⟩ :=
  c3_fallback_year_formats.1 2 "1/2/2023 3:04" ⟨2023, 2, 1, 3, 4, 0⟩ (by decide)

/-- Claim C4 (confirmed): `parse_chat` fails with `EmptyChat` exactly when
zero records are produced, with the distinct `NoMessagesAfterFiltering`
exactly when records were produced but the content filter removed them
all, and on every other input returns a non-empty sequence.  An input of
only blank lines gives `EmptyChat`; an input of one system-notice message
gives `NoMessagesAfterFiltering`. -/
theorem c4_error_modes (env : EmojiEnv) (raw : String) :
    (parse_chat env raw = .error .EmptyChat ↔ parseRecords raw = []) ∧
    (parse_chat env raw = .error .NoMessagesAfterFiltering ↔
      (parseRecords raw ≠ [] ∧ filterRecords (parseRecords raw) = [])) ∧
    (∀ out, parse_chat env raw = .ok out → out ≠ []) ∧
    parse_chat env "\n   \n" = .error .EmptyChat ∧
    parse_chat env "[1/2/23, 3:04:05 PM] Alice: image omitted" =
      .error .NoMessagesAfterFiltering := by
  refine ⟨?_, ?_, ?_, rfl, rfl⟩
  · by_cases h1 : parseRecords raw = []
    · simp [parse_chat, h1]
    · by_cases h2 : filterRecords (parseRecords raw) = []
      · simp [parse_chat, h1, h2]
      · simp [parse_chat, h1, h2]
  · by_cases h1 : parseRecords raw = []
    · simp [parse_chat, h1]
    · by_cases h2 : filterRecords (parseRecords raw) = []
      · simp [parse_chat, h1, h2]
      · simp [parse_chat, h1, h2]
  · intro out hout
    by_cases h1 : parseRecords raw = []
    · simp [parse_chat, h1] at hout
    · by_cases h2 : filterRecords (parseRecords raw) = []
      · simp [parse_chat, h1, h2] at hout
      · simp [parse_chat, h1, h2] at hout
        rw [← hout]
        simp [enrichAll, h2]

/-- Claim C4 witness: the characterization applied to an input whose lines
all fail to match. -/
theorem c4_witness : parse_chat plainEnv "hello\n" = .error .EmptyChat :=
  (c4_error_modes plainEnv "hello\n").1.mpr (by decide)

/-- Claim C8 (confirmed): the emoji extractor and the lexical tokenizer
are total and never propagate a failure of their external library calls —
whenever the underlying call fails, each returns the empty list. -/
theorem c8_helpers_never_fail (ee : EmojiEnv) (te : TokenizerEnv) (t : String) :
    (∀ err, ee.graphemes t = .error err → extract_emojis ee t = []) ∧
    (∀ err, te.word_tokenize (removePunct (lowerStr t)) = .error err →
        get_tokens te t = []) ∧
    (∃ res, extract_emojis ee t = res) ∧ (∃ res, get_tokens te t = res) := by
  refine ⟨?_, ?_, ⟨_, rfl⟩, ⟨_, rfl⟩⟩
  · intro err h
    unfold extract_emojis
    rw [h]
  · intro err h
    unfold get_tokens
    rw [h]

/-- Claim C8 witness: environments whose library calls always fail yield
empty results. -/
theorem c8_witness :
    extract_emojis failG "hello" = [] ∧ get_tokens failT "hello" = [] :=
  ⟨(c8_helpers_never_fail failG failT "hello").1 "regex failure" rfl,
   (c8_helpers_never_fail failG failT "hello").2.1 "nltk failure" rfl⟩

/-- Claim C9 (confirmed): the Feature Deriver is pure and per-record:
re-deriving every derived column of an enriched sequence reproduces it
unchanged, the enriched sequence is the element-wise image of the input
(record `n` of the output depends only on record `n` of the input), and
the derived columns depend only on the record's timestamp and message
body. -/
theorem c9_enrichment_pure (env : EmojiEnv) (l : List Record) (n : Nat) :
    (enrichAll env l).map (reDerive env) = enrichAll env l ∧
    (enrichAll env l)[n]? = (l[n]?).map (enrich env) ∧
    (∀ r r' : Record, r.dateTime = r'.dateTime → r.message = r'.message →
      derivedFields (enrich env r) = derivedFields (enrich env r')) := by
  refine ⟨?_, ?_, ?_⟩
  · rw [enrichAll, List.map_map]
    rfl
  · rw [enrichAll, List.getElem?_map]
  · intro r r' h1 h2
    simp [derivedFields, enrich, h1, h2]

/-- Claim C9 witness: two records sharing timestamp and body get identical
derived columns. -/
theorem c9_witness :
    derivedFields (enrich plainEnv ⟨⟨2023, 1, 2, 15, 4, 5⟩, "Alice", "hi"⟩) =
      derivedFields (enrich plainEnv ⟨⟨2023, 1, 2, 15, 4, 5⟩, "Bob", "hi"⟩) :=
  (c9_enrichment_pure plainEnv [] 0).2.2 _ _ rfl rfl
